import Mathlib

/-!
Shallow embedding of the core of the WinWise soccer prediction platform
(backend/app/services/ai_prediction_service.py, backend/app/ml/model.py,
backend/app/services/soccer_service.py), together with theorems settling
the stated properties of its ensemble aggregator, derived-market generator,
value/edge analyzer and settlement evaluator.

Conventions of the embedding:
  - Python floats are idealized as exact rationals.
  - Python dicts used as ordered string-keyed maps are association lists
    with Python's insertion-order update semantics.
  - Python round (round-half-to-even) is modelled exactly on rationals.
  - Python max over key-value pairs keeps the first maximal element, as a
    left fold that replaces the current best only on strict improvement.
  - Fallible code paths (KeyError, ZeroDivisionError, ValueError) return
    values in an Except monad.
-/

set_option autoImplicit false

namespace WinWise

/-! # Definitions -/

/-- The three match outcome tokens used throughout the code base. -/
inductive Outcome where
  | home_win
  | draw
  | away_win
  deriving DecidableEq, Repr

/-- RiskLevel enum (ai_prediction_service.py lines 112-117). -/
inductive RiskLevel where
  | very_low
  | low
  | medium
  | high
  | very_high
  deriving DecidableEq, Repr

/-- Round half to even on rationals (semantics of Python round(x)). -/
def roundHalfEven (q : ℚ) : ℤ :=
  let f : ℤ := Int.floor q
  let frac : ℚ := q - f
  if frac < 1/2 then f
  else if 1/2 < frac then f + 1
  else if f % 2 = 0 then f else f + 1

/-- Semantics of Python round(x, 2): round half to even at 2 decimal places. -/
def pyRound2 (q : ℚ) : ℚ := (roundHalfEven (q * 100) : ℚ) / 100

/-- Semantics of Python round(x): round half to even to an integer. -/
def pyRound0 (q : ℚ) : ℤ := roundHalfEven q

/-- Semantics of Python max(pairs, key=value): left fold over the remaining
elements that replaces the current best only when strictly greater, so the
first maximal element wins. -/
def pythonMaxBySnd {α : Type} (x : α × ℚ) : List (α × ℚ) → α × ℚ
  | [] => x
  | p :: rest => pythonMaxBySnd (if x.2 < p.2 then p else x) rest

/-- Mean of a list of rationals (numpy mean). -/
def listMean (xs : List ℚ) : ℚ := xs.sum / xs.length

/-- numpy population variance np.var: mean of squared deviations. -/
def npVar (xs : List ℚ) : ℚ :=
  ((xs.map (fun x => (x - listMean xs) ^ 2)).sum) / xs.length

/-! ## Ordered string-keyed dicts as association lists -/

/-- Python d.get(k, dflt) on an insertion-ordered dict. -/
def dictGet (d : List (String × ℚ)) (k : String) (dflt : ℚ) : ℚ :=
  match d with
  | [] => dflt
  | (k2, v) :: rest => if k2 = k then v else dictGet rest k dflt

/-- Python d[k] = v on an insertion-ordered dict: overwrite in place when
the key exists, append at the end otherwise. -/
def dictSet (d : List (String × ℚ)) (k : String) (v : ℚ) : List (String × ℚ) :=
  match d with
  | [] => [(k, v)]
  | (k2, v2) :: rest => if k2 = k then (k, v) :: rest else (k2, v2) :: dictSet rest k v

/-- Keys of a dict, in order. -/
def dictKeys (d : List (String × ℚ)) : List String := d.map Prod.fst

/-- Python sum(d.values()). -/
def totalWeight (d : List (String × ℚ)) : ℚ := (d.map Prod.snd).sum

/-! ## Settlement evaluator (soccer_service.py) -/

/-- PredictionStatus enum from app/models/prediction.py. -/
inductive PredictionStatus where
  | pending
  | correct
  | incorrect
  | void
  | partially_correct
  deriving DecidableEq, Repr

/-- The fields of a stored Prediction row read or written at settlement:
prediction_data.outcome, prediction_data.score_prediction, potential_return
and stake_amount are read by SoccerService.settle_prediction; status,
profit_loss, points_earned and performance_metrics are the mutable columns
written back by Prediction.settle_prediction. -/
structure PredictionRec where
  outcome : String
  pred_score_home : ℤ
  pred_score_away : ℤ
  potential_return : ℚ
  stake_amount : ℚ
  status : PredictionStatus
  profit_loss : ℚ
  points_earned : ℤ
  performance_metrics : Option (ℚ × ℚ)
  deriving DecidableEq, Repr

/-- The fields of a Match row read at settlement. -/
structure MatchRec where
  is_finished : Bool
  score_home : ℤ
  score_away : ℤ
  deriving DecidableEq, Repr

/-- Result dict of SoccerService.settle_prediction; performance_metrics
holds (score_accuracy, goal_difference_accuracy) when settled. -/
structure SettlementResult where
  status : PredictionStatus
  profit_loss : ℚ
  points_earned : ℤ
  performance_metrics : Option (ℚ × ℚ)
  deriving DecidableEq, Repr

/-- SoccerService._get_match_outcome (soccer_service.py lines 231-237). -/
def get_match_outcome (home away : ℤ) : String :=
  if home > away then "home_win"
  else if home < away then "away_win"
  else "draw"

/-- SoccerService._calculate_score_accuracy (soccer_service.py lines
239-244): 1 - (|home diff| + |away diff|) / (2 * max_diff), max_diff = 5. -/
def calculate_score_accuracy (ph pa ah aa : ℤ) : ℚ :=
  1 - (((|ph - ah| + |pa - aa| : ℤ) : ℚ) / (2 * 5))

/-- SoccerService._calculate_goal_difference_accuracy (soccer_service.py
lines 246-251). -/
def calculate_goal_difference_accuracy (ph pa ah aa : ℤ) : ℚ :=
  1 - (((|(ph - pa) - (ah - aa)| : ℤ) : ℚ) / (2 * 5))

/-- SoccerService.settle_prediction (soccer_service.py lines 168-209). -/
def settle_prediction (p : PredictionRec) (m : MatchRec) : SettlementResult :=
  if m.is_finished = false then
    { status := .pending, profit_loss := 0, points_earned := 0
      performance_metrics := none }
  else
    let actual_outcome := get_match_outcome m.score_home m.score_away
    let metrics : Option (ℚ × ℚ) :=
      some (calculate_score_accuracy p.pred_score_home p.pred_score_away m.score_home m.score_away,
            calculate_goal_difference_accuracy p.pred_score_home p.pred_score_away m.score_home m.score_away)
    if p.outcome = actual_outcome then
      { status := .correct, profit_loss := p.potential_return - p.stake_amount
        points_earned := 10, performance_metrics := metrics }
    else
      { status := .incorrect, profit_loss := -p.stake_amount
        points_earned := 0, performance_metrics := metrics }

/-- Prediction.settle_prediction (app/models/prediction.py lines 74-86):
stores a settlement result back into the mutable columns of the row; the
immutable prediction_data, stake and potential return are untouched. -/
def apply_settlement (p : PredictionRec) (r : SettlementResult) : PredictionRec :=
  { p with status := r.status, profit_loss := r.profit_loss
           points_earned := r.points_earned
           performance_metrics := r.performance_metrics }

/-! ## Diagnostics correlation (ai_prediction_service.py) -/

/-- AIPredictionService._calculate_prediction_correlation
(ai_prediction_service.py lines 314-318). -/
def calculate_prediction_correlation (val1 val2 : ℚ) : ℚ :=
  1/2 * (val1 / (val1 + val2)) + 1/2 * (val2 / (val1 + val2))

/-! ## Derived market generator (ai_prediction_service.py) -/

/-- The fields of the base ensemble prediction read by
_get_additional_predictions: score_prediction and confidence. -/
structure BasePrediction where
  score_home : ℤ
  score_away : ℤ
  confidence : ℚ
  deriving DecidableEq, Repr

/-- The match_data fields consulted on the execution path of
_get_additional_predictions up to its point of failure: _predict_corners
reads attacking_style; the team payloads are only ever passed to the
undefined attacking-strength helper. -/
structure MatchData where
  home_team : String
  away_team : String
  attacking_style : Option String
  deriving DecidableEq, Repr

/-- AIPredictionService._predict_corners (ai_prediction_service.py lines
333-345): 10 base corners scaled by the attacking-style factor, rounded. -/
def predict_corners (match_data : MatchData) : ℤ :=
  let base_corners : ℚ := 10
  let style_factor : ℚ :=
    match match_data.attacking_style with
    | some "wing_play" => 12/10
    | some "central" => 9/10
    | _ => 1
  pyRound0 (base_corners * style_factor)

/-- The AIPredictionService class (which has no base class) defines no
method named _calculate_team_attacking_strength — only
_calculate_team_strength exists — so the attribute lookup at
ai_prediction_service.py line 220 raises AttributeError for every
argument. -/
def calculate_team_attacking_strength (_team : String) : Except String ℚ :=
  .error "AttributeError: AIPredictionService object has no attribute _calculate_team_attacking_strength"

/-- The dict _predict_detailed_corners would return (lines 223-232),
including its literal confidence 0.75 at line 231. -/
structure CornersMarket where
  total : ℤ
  home_team : ℤ
  away_team : ℤ
  over_8_5 : Bool
  over_10_5 : Bool
  first_half : ℤ
  second_half : ℤ
  confidence : ℚ
  deriving DecidableEq, Repr

/-- AIPredictionService._predict_detailed_corners (ai_prediction_service.py
lines 217-232): computes base corners, then looks up the undefined method
_calculate_team_attacking_strength for each team (lines 220-221) — which
raises AttributeError before the record, and in particular its literal
confidence 0.75 (line 231), can be built. -/
def predict_detailed_corners (match_data : MatchData) : Except String CornersMarket := do
  let base_corners : ℤ := predict_corners match_data
  let home_attacking_strength ← calculate_team_attacking_strength match_data.home_team
  let away_attacking_strength ← calculate_team_attacking_strength match_data.away_team
  .ok { total := base_corners
        home_team := pyRound0 ((base_corners : ℚ) *
          (home_attacking_strength / (home_attacking_strength + away_attacking_strength)))
        away_team := pyRound0 ((base_corners : ℚ) *
          (away_attacking_strength / (home_attacking_strength + away_attacking_strength)))
        over_8_5 := decide ((17/2 : ℚ) < (base_corners : ℚ))
        over_10_5 := decide ((21/2 : ℚ) < (base_corners : ℚ))
        first_half := pyRound0 ((base_corners : ℚ) * (45/100))
        second_half := pyRound0 ((base_corners : ℚ) * (55/100))
        confidence := 3/4 }

/-- The confidence fields the _get_additional_predictions dict would carry
if its construction completed. -/
structure AdditionalPredictions where
  over_under_confidence : ℚ
  btts_confidence : ℚ
  first_half_confidence : ℚ
  corners : CornersMarket
  cards_confidence : ℚ
  possession_confidence : ℚ
  shots_confidence : ℚ
  deriving DecidableEq, Repr

/-- AIPredictionService._get_additional_predictions (ai_prediction_service.py
lines 173-215), restricted to the confidence fields of the market records
it assembles. The dict literal evaluates its entries in order: over_under,
btts and first_half derive their confidences from the base prediction
(factors 0.9 / 0.85 / 0.7 at lines 187, 191, 198), and the corners entry
then calls _predict_detailed_corners (line 201), whose AttributeError
propagates before any later entry — cards (literal confidence 0.7, line
247), possession (0.65, line 261), shots (0.6, line 272) — is evaluated. -/
def get_additional_predictions (match_data : MatchData) (base : BasePrediction) :
    Except String AdditionalPredictions := do
  let over_under_confidence := base.confidence * (9/10)
  let btts_confidence := base.confidence * (17/20)
  let first_half_confidence := base.confidence * (7/10)
  let corners ← predict_detailed_corners match_data
  let cards_confidence : ℚ := 7/10
  let possession_confidence : ℚ := 13/20
  let shots_confidence : ℚ := 3/5
  .ok { over_under_confidence, btts_confidence, first_half_confidence, corners,
        cards_confidence, possession_confidence, shots_confidence }

/-! ## Validated forecasts and the ensemble aggregator -/

/-- One validated model forecast as consumed by the ensemble: the fields of
the dict produced by _validate_and_format_prediction that the aggregation
code reads (reasoning / key-factor string lists are carried through
untouched and affect no verified quantity, so they are omitted). -/
structure Forecast where
  predicted_outcome : Outcome
  score_home : ℚ
  score_away : ℚ
  confidence : ℚ
  deriving DecidableEq, Repr

/-- The clamp min(max(confidence, 0.5), 1.0) applied to each provider's
confidence in _calculate_dynamic_weights (line 425). -/
def clampConf (c : ℚ) : ℚ := min (max c (1/2)) 1

/-- The weight-adjustment loop of _calculate_dynamic_weights (lines
424-426): weights[model] = weights.get(model, 0.5) * clamped confidence,
folded over the prediction list in order. -/
def applyConfidences (preds : List (String × Forecast)) (w : List (String × ℚ)) :
    List (String × ℚ) :=
  match preds with
  | [] => w
  | (model, pred) :: rest =>
    applyConfidences rest (dictSet w model (dictGet w model (1/2) * clampConf pred.confidence))

/-- AIPredictionService._calculate_dynamic_weights (ai_prediction_service.py
lines 419-430): adjust the base weights by each contributing provider's
clamped confidence, then divide every entry of the resulting dict — also
the entries of models that contributed no forecast — by the total. -/
def calculate_dynamic_weights (preds : List (String × Forecast))
    (base_weights : List (String × ℚ)) : List (String × ℚ) :=
  let weights := applyConfidences preds base_weights
  weights.map (fun p => (p.1, p.2 / totalWeight weights))

/-- The outcome_probabilities dict of _weighted_aggregate, initialised to
zero for home_win, draw, away_win in that insertion order. -/
structure OutcomeProbs where
  home_win : ℚ
  draw : ℚ
  away_win : ℚ
  deriving DecidableEq, Repr

/-- One loop step outcome_probabilities[outcome] += weight. -/
def OutcomeProbs.addMass (m : OutcomeProbs) (o : Outcome) (w : ℚ) : OutcomeProbs :=
  match o with
  | .home_win => { m with home_win := m.home_win + w }
  | .draw => { m with draw := m.draw + w }
  | .away_win => { m with away_win := m.away_win + w }

/-- Total probability mass of the outcome_probabilities dict. -/
def OutcomeProbs.total (m : OutcomeProbs) : ℚ := m.home_win + m.draw + m.away_win

/-- The accumulation loop of _weighted_aggregate (line 452), starting from
an arbitrary accumulator. -/
def accumulateMassFrom (weights : List (String × ℚ)) (preds : List (String × Forecast))
    (m : OutcomeProbs) : OutcomeProbs :=
  match preds with
  | [] => m
  | (model, pred) :: rest =>
    accumulateMassFrom weights rest (m.addMass pred.predicted_outcome (dictGet weights model 0))

/-- outcome_probabilities after the aggregation loop of _weighted_aggregate. -/
def accumulateOutcomeProbs (preds : List (String × Forecast))
    (weights : List (String × ℚ)) : OutcomeProbs :=
  accumulateMassFrom weights preds { home_win := 0, draw := 0, away_win := 0 }

/-- Line 462: max(outcome_probabilities.items(), key=value)[0], over the
dict's insertion order home_win, draw, away_win. -/
def pickPredictedOutcome (m : OutcomeProbs) : Outcome :=
  (pythonMaxBySnd (Outcome.home_win, m.home_win)
    [(Outcome.draw, m.draw), (Outcome.away_win, m.away_win)]).1

/-- AIPredictionService._calculate_consistency (ai_prediction_service.py
lines 480-497): 1.0 for fewer than two forecasts; otherwise rounds
(1 / (1 + score_variance)) * (1 / distinct outcome count) to 2 decimals,
where score_variance averages the per-side population variances. -/
def calculate_consistency (preds : List (String × Forecast)) : ℚ :=
  if preds.length < 2 then 1
  else
    let home_scores := preds.map (fun p => p.2.score_home)
    let away_scores := preds.map (fun p => p.2.score_away)
    let score_variance := (npVar home_scores + npVar away_scores) / 2
    let unique_outcomes : ℚ := ((preds.map (fun p => p.2.predicted_outcome)).dedup.length : ℚ)
    pyRound2 (1 / (1 + score_variance) * (1 / unique_outcomes))

/-- AIPredictionService._assess_risk (ai_prediction_service.py lines
499-510). -/
def assess_risk (preds : List (String × Forecast)) (consistency : ℚ) : RiskLevel :=
  let avg_confidence := listMean (preds.map (fun p => p.2.confidence))
  if 4/5 < consistency ∧ 3/4 < avg_confidence then .low
  else if consistency < 1/2 ∨ avg_confidence < 1/2 then .high
  else .medium

/-- The EnsembleForecast dict built by _weighted_aggregate (the
reasoning / key-factor string lists it also carries are omitted: Python
materialises them via list(set(...)), whose order is unspecified, and no
verified quantity depends on them). -/
structure EnsembleResult where
  predicted_outcome : Outcome
  score_home : ℤ
  score_away : ℤ
  confidence : ℚ
  risk_assessment : RiskLevel
  model_agreement : Bool
  consistency_score : ℚ
  outcome_probabilities : OutcomeProbs
  deriving DecidableEq, Repr

/-- AIPredictionService._weighted_aggregate (ai_prediction_service.py lines
432-478): weighted score and confidence blending, outcome-mass voting with
Python-max argmax, model agreement, consistency and risk. -/
def weighted_aggregate (preds : List (String × Forecast))
    (weights : List (String × ℚ)) : EnsembleResult :=
  let probs := accumulateOutcomeProbs preds weights
  let consistency := calculate_consistency preds
  { predicted_outcome := pickPredictedOutcome probs
    score_home := pyRound0 ((preds.map (fun p => p.2.score_home * dictGet weights p.1 0)).sum)
    score_away := pyRound0 ((preds.map (fun p => p.2.score_away * dictGet weights p.1 0)).sum)
    confidence := (preds.map (fun p => p.2.confidence * dictGet weights p.1 0)).sum
    risk_assessment := assess_risk preds consistency
    model_agreement := (preds.map (fun p => p.2.predicted_outcome)).dedup.length == 1
    consistency_score := consistency
    outcome_probabilities := probs }

/-! ## Forecast validator (ai_prediction_service.py) -/

/-- A raw provider response before validation: every field may be absent.
score_prediction is one field of the JSON object, modelled as an optional
pair of goals. -/
structure RawPrediction where
  predicted_outcome : Option String
  score_prediction : Option (ℤ × ℤ)
  confidence : Option ℚ
  reasoning : Option (List String)
  key_factors : Option (List String)
  risk_assessment : Option String
  deriving DecidableEq, Repr

/-- The dict returned by _validate_and_format_prediction. -/
structure FormattedPrediction where
  predicted_outcome : String
  score_prediction : ℤ × ℤ
  confidence : ℚ
  reasoning : List String
  key_factors : List String
  risk_assessment : String
  deriving DecidableEq, Repr

/-- AIPredictionService._validate_and_format_prediction
(ai_prediction_service.py lines 670-692): raises ValueError when a
required field (predicted_outcome, score_prediction, confidence,
reasoning) is missing or when confidence falls outside [0,1]; otherwise
returns the formatted dict, defaulting key_factors to [] and
risk_assessment to "medium". The predicted_outcome value itself is not
inspected. -/
def validate_and_format_prediction (p : RawPrediction) : Except String FormattedPrediction :=
  match p.predicted_outcome, p.score_prediction, p.confidence, p.reasoning with
  | some o, some sp, some c, some r =>
    if c < 0 ∨ 1 < c then
      .error "Confidence score must be between 0 and 1"
    else
      .ok { predicted_outcome := o, score_prediction := sp, confidence := c
            reasoning := r, key_factors := p.key_factors.getD []
            risk_assessment := p.risk_assessment.getD "medium" }
  | _, _, _, _ => .error "Missing required fields in prediction"

/-! ## Value/edge analyzer (ml/model.py) -/

/-- The fields of MatchPredictionModel.predict output read by
evaluate_prediction_quality. -/
structure ModelPrediction where
  home_win_probability : ℚ
  draw_probability : ℚ
  away_win_probability : ℚ
  confidence : ℚ
  deriving DecidableEq, Repr

/-- Lookup prediction[outcome.lower() + "_probability"]. -/
def ModelPrediction.probOf (p : ModelPrediction) : Outcome → ℚ
  | .home_win => p.home_win_probability
  | .draw => p.draw_probability
  | .away_win => p.away_win_probability

/-- An odds dict keyed by HOME_WIN / DRAW / AWAY_WIN; any entry may be
absent. -/
structure OddsDict where
  home_win : Option ℚ
  draw : Option ℚ
  away_win : Option ℚ
  deriving DecidableEq, Repr

/-- Python odds.values(): the present decimal odds, in key order. -/
def OddsDict.values (o : OddsDict) : List ℚ :=
  [o.home_win, o.draw, o.away_win].filterMap id

/-- Total lookup used once all three keys are known present. -/
def oddsAt (vh vd va : ℚ) : Outcome → ℚ
  | .home_win => vh
  | .draw => vd
  | .away_win => va

/-- The dict returned by evaluate_prediction_quality. -/
structure QualityResult where
  best_bet : Outcome
  edge : ℚ
  kelly_fraction : ℚ
  value_rating : ℚ
  market_efficiency : ℚ
  deriving DecidableEq, Repr

/-- MatchPredictionModel.evaluate_prediction_quality (ml/model.py lines
89-124). Implied probabilities 1/odds are normalised by their sum; a zero
odd, or a zero implied-probability total over a non-empty odds dict, is a
ZeroDivisionError; a missing outcome key is a KeyError when the per-outcome
edges are built; the best bet is the first maximal edge in key order; a
positive best edge computes the Kelly fraction, whose denominator odds - 1
is a ZeroDivisionError at odds = 1; the published fraction is clamped by
max(0, min(kelly, 0.1)). The Python wrapper logs and re-raises every such
exception, which the embedding renders as an error value. -/
def evaluate_prediction_quality (pred : ModelPrediction) (odds : OddsDict) :
    Except String QualityResult :=
  if ∃ v ∈ odds.values, v = 0 then
    .error "ZeroDivisionError: float division by zero"
  else
    let total_implied := (odds.values.map (fun v => 1 / v)).sum
    if odds.values ≠ [] ∧ total_implied = 0 then
      .error "ZeroDivisionError: float division by zero"
    else
      match odds.home_win, odds.draw, odds.away_win with
      | some vh, some vd, some va =>
        let best := pythonMaxBySnd
          (Outcome.home_win, pred.home_win_probability - (1 / vh) / total_implied)
          [(Outcome.draw, pred.draw_probability - (1 / vd) / total_implied),
           (Outcome.away_win, pred.away_win_probability - (1 / va) / total_implied)]
        if 0 < best.2 then
          if oddsAt vh vd va best.1 - 1 = 0 then
            .error "ZeroDivisionError: float division by zero"
          else
            let kelly_fraction :=
              (oddsAt vh vd va best.1 * pred.probOf best.1 - 1) / (oddsAt vh vd va best.1 - 1)
            .ok { best_bet := best.1, edge := best.2
                  kelly_fraction := max 0 (min kelly_fraction (1/10))
                  value_rating := best.2 * pred.confidence
                  market_efficiency := 1 - |1 - total_implied| }
        else
          .ok { best_bet := best.1, edge := best.2
                kelly_fraction := max 0 (min 0 (1/10))
                value_rating := best.2 * pred.confidence
                market_efficiency := 1 - |1 - total_implied| }
      | _, _, _ => .error "KeyError"

/-! # Theorems -/

/-! ## Claim C8: settlement accuracy metrics -/

/-- C8 counterexample: with predicted score 11-0 and actual score 0-0 the
score accuracy (and likewise the goal-difference accuracy) computed at
settlement is -1/10, which lies outside [0,1]: the code applies no clamp,
refuting the claim that both results lie in [0,1]. -/
theorem C8_counterexample :
    calculate_score_accuracy 11 0 0 0 = -1/10 ∧
    ¬ (0 ≤ calculate_score_accuracy 11 0 0 0) ∧
    calculate_goal_difference_accuracy 11 0 0 0 = -1/10 := by
  refine ⟨by norm_num [calculate_score_accuracy], ?_, by norm_num [calculate_goal_difference_accuracy]⟩
  norm_num [calculate_score_accuracy]

/-- C8 (amended): for non-negative integer goals, scoreAccuracy and
goalDifferenceAccuracy equal 1 - |delta| / (2 * 5) with maxPlausibleGoalDiff
= 5, but the results are NOT clamped: each is always at most 1, and is
non-negative exactly when the relevant goal discrepancy is at most 10. -/
theorem C8_accuracy_formula (ph pa ah aa : ℤ)
    (hph : 0 ≤ ph) (hpa : 0 ≤ pa) (hah : 0 ≤ ah) (haa : 0 ≤ aa) :
    calculate_score_accuracy ph pa ah aa =
      1 - (((|ph - ah| + |pa - aa| : ℤ) : ℚ) / (2 * 5)) ∧
    calculate_score_accuracy ph pa ah aa ≤ 1 ∧
    (0 ≤ calculate_score_accuracy ph pa ah aa ↔ |ph - ah| + |pa - aa| ≤ 10) ∧
    calculate_goal_difference_accuracy ph pa ah aa =
      1 - (((|(ph - pa) - (ah - aa)| : ℤ) : ℚ) / (2 * 5)) ∧
    calculate_goal_difference_accuracy ph pa ah aa ≤ 1 ∧
    (0 ≤ calculate_goal_difference_accuracy ph pa ah aa ↔
      |(ph - pa) - (ah - aa)| ≤ 10) := by
  have habs1 : (0 : ℤ) ≤ |ph - ah| + |pa - aa| :=
    add_nonneg (abs_nonneg _) (abs_nonneg _)
  have habs2 : (0 : ℤ) ≤ |(ph - pa) - (ah - aa)| := abs_nonneg _
  refine ⟨rfl, ?_, ?_, rfl, ?_, ?_⟩
  · unfold calculate_score_accuracy
    have : (0 : ℚ) ≤ ((|ph - ah| + |pa - aa| : ℤ) : ℚ) := by exact_mod_cast habs1
    linarith
  · unfold calculate_score_accuracy
    rw [sub_nonneg, div_le_one (by norm_num)]
    constructor
    · intro h
      exact_mod_cast h
    · intro h
      exact_mod_cast h
  · unfold calculate_goal_difference_accuracy
    have : (0 : ℚ) ≤ ((|(ph - pa) - (ah - aa)| : ℤ) : ℚ) := by exact_mod_cast habs2
    linarith
  · unfold calculate_goal_difference_accuracy
    rw [sub_nonneg, div_le_one (by norm_num)]
    constructor
    · intro h
      exact_mod_cast h
    · intro h
      exact_mod_cast h

/-- C8 witness: the amended theorem instantiated at predicted 2-1 versus
actual 1-1. -/
theorem C8_accuracy_formula_witness :
    calculate_score_accuracy 2 1 1 1 =
      1 - (((|(2 : ℤ) - 1| + |(1 : ℤ) - 1| : ℤ) : ℚ) / (2 * 5)) ∧
    calculate_score_accuracy 2 1 1 1 ≤ 1 ∧
    (0 ≤ calculate_score_accuracy 2 1 1 1 ↔
      |(2 : ℤ) - 1| + |(1 : ℤ) - 1| ≤ 10) ∧
    calculate_goal_difference_accuracy 2 1 1 1 =
      1 - (((|((2 : ℤ) - 1) - ((1 : ℤ) - 1)| : ℤ) : ℚ) / (2 * 5)) ∧
    calculate_goal_difference_accuracy 2 1 1 1 ≤ 1 ∧
    (0 ≤ calculate_goal_difference_accuracy 2 1 1 1 ↔
      |((2 : ℤ) - 1) - ((1 : ℤ) - 1)| ≤ 10) :=
  C8_accuracy_formula 2 1 1 1 (by norm_num) (by norm_num) (by norm_num) (by norm_num)

/-! ## Claim C9: settlement idempotence -/

/-- C9: settlement is idempotent. Re-settling a prediction row after the
result of a first settlement has been stored into it (status, profit/loss,
points, metrics), against the identical completed match, yields exactly the
same settlement result: no double counting of profit or loss is possible
because settle_prediction reads only the immutable prediction fields. -/
theorem C9_settlement_idempotent (p : PredictionRec) (m : MatchRec) :
    settle_prediction (apply_settlement p (settle_prediction p m)) m =
      settle_prediction p m := by
  unfold settle_prediction apply_settlement
  rcases m.is_finished with _ | _ <;> simp

/-! ## Claim C10: the constant correlation -/

/-- C10: for every pair of numeric market totals whose sum is non-zero,
the correlation computed by _calculate_prediction_correlation is exactly
1/2, and the value reported by the diagnostics (rounded to 2 decimals) is
also exactly 1/2 — the analysis is constant, independent of its inputs. -/
theorem C10_correlation_constant (val1 val2 : ℚ) (h : val1 + val2 ≠ 0) :
    calculate_prediction_correlation val1 val2 = 1/2 ∧
    pyRound2 (calculate_prediction_correlation val1 val2) = 1/2 := by
  have hmain : calculate_prediction_correlation val1 val2 = 1/2 := by
    unfold calculate_prediction_correlation
    field_simp
    ring
  refine ⟨hmain, ?_⟩
  rw [hmain]
  norm_num [pyRound2, roundHalfEven]

/-- C10 witness: concrete totals 10 (corners) and 4 (cards). -/
theorem C10_correlation_constant_witness :
    calculate_prediction_correlation 10 4 = 1/2 ∧
    pyRound2 (calculate_prediction_correlation 10 4) = 1/2 :=
  C10_correlation_constant 10 4 (by norm_num)

/-! ## Claim C2: derived market confidence versus base confidence -/

/-- C2: the derived-market generator cannot uphold — or violate — the
claimed confidence-decay invariant because it crashes before producing any
record: for every match payload and every base prediction,
_get_additional_predictions propagates the AttributeError raised while
evaluating its corners entry (the method _calculate_team_attacking_strength
named at line 220 is defined nowhere in AIPredictionService), so not a
single derived market record, and in particular no confidence field, is
ever returned — although the tests of the repository assert that the
corners, cards, possession and shots records are present in the result. -/
theorem C2_derived_markets_raise (match_data : MatchData) (base : BasePrediction) :
    ∃ e, get_additional_predictions match_data base = .error e :=
  ⟨_, rfl⟩

/-! ## Claim C7: the consistency formula -/

/-- C7: for two or more validated forecasts, _calculate_consistency returns
round((1 / (1 + averageScoreVariance)) * (1 / distinctOutcomeCount), 2)
where averageScoreVariance is the mean of the per-side population score
variances, and for a single-forecast input it returns exactly 1. -/
theorem C7_consistency_formula (preds : List (String × Forecast)) :
    (2 ≤ preds.length →
      calculate_consistency preds =
        pyRound2 (1 / (1 + (npVar (preds.map (fun p => p.2.score_home)) +
                            npVar (preds.map (fun p => p.2.score_away))) / 2) *
                  (1 / ((preds.map (fun p => p.2.predicted_outcome)).dedup.length : ℚ)))) ∧
    (preds.length = 1 → calculate_consistency preds = 1) := by
  constructor
  · intro h2
    unfold calculate_consistency
    rw [if_neg (by omega)]
  · intro h1
    unfold calculate_consistency
    rw [if_pos (by omega)]

/-- C7 witness: the formula instantiated at a concrete two-forecast input
(scores 2-1 and 1-1, unanimous home_win), and exact value 1 at a concrete
single-forecast input with confidence 0.9. -/
theorem C7_consistency_formula_witness :
    (2 ≤ ([("gpt4", Forecast.mk Outcome.home_win 2 1 (4/5)),
           ("deepseek", Forecast.mk Outcome.home_win 1 1 (3/5))] : List (String × Forecast)).length ∧
     calculate_consistency [("gpt4", Forecast.mk Outcome.home_win 2 1 (4/5)),
                            ("deepseek", Forecast.mk Outcome.home_win 1 1 (3/5))] =
       pyRound2 (1 / (1 + (npVar ([("gpt4", Forecast.mk Outcome.home_win 2 1 (4/5)),
                                   ("deepseek", Forecast.mk Outcome.home_win 1 1 (3/5))].map (fun p => p.2.score_home)) +
                           npVar ([("gpt4", Forecast.mk Outcome.home_win 2 1 (4/5)),
                                   ("deepseek", Forecast.mk Outcome.home_win 1 1 (3/5))].map (fun p => p.2.score_away))) / 2) *
                 (1 / (([("gpt4", Forecast.mk Outcome.home_win 2 1 (4/5)),
                        ("deepseek", Forecast.mk Outcome.home_win 1 1 (3/5))].map (fun p => p.2.predicted_outcome)).dedup.length : ℚ)))) ∧
    calculate_consistency [("solo", Forecast.mk Outcome.home_win 2 0 (9/10))] = 1 :=
  ⟨⟨by decide,
    (C7_consistency_formula [("gpt4", Forecast.mk Outcome.home_win 2 1 (4/5)),
                             ("deepseek", Forecast.mk Outcome.home_win 1 1 (3/5))]).1 (by decide)⟩,
   (C7_consistency_formula [("solo", Forecast.mk Outcome.home_win 2 0 (9/10))]).2 (by decide)⟩

/-! ## Claim C5: what the validator rejects -/

/-- C5 counterexample: a raw forecast whose predicted_outcome is the token
"banana" — none of home_win, draw, away_win — but which has all required
fields and an in-range confidence is ACCEPTED by the validator with the
invalid token passed through unchanged, refuting the claim that such
forecasts are rejected. -/
theorem C5_counterexample :
    validate_and_format_prediction
        { predicted_outcome := some "banana", score_prediction := some (2, 1)
          confidence := some (7/10), reasoning := some ["x"]
          key_factors := none, risk_assessment := none } =
      .ok { predicted_outcome := "banana", score_prediction := (2, 1)
            confidence := 7/10, reasoning := ["x"], key_factors := []
            risk_assessment := "medium" } ∧
    ("banana" ≠ "home_win" ∧ "banana" ≠ "draw" ∧ "banana" ≠ "away_win") := by
  constructor
  · simp only [validate_and_format_prediction]
    rw [if_neg (by norm_num)]
    rfl
  · refine ⟨?_, ?_, ?_⟩ <;> decide

/-- C5 (amended): the validator rejects exactly the raw forecasts with a
missing required field or a confidence outside [0,1]; it never inspects
the predicted_outcome token, so any string — valid or not — passes through
validation unchanged. -/
theorem C5_validator_characterization (p : RawPrediction) :
    ((∃ f, validate_and_format_prediction p = .ok f) ↔
      ((∃ o, p.predicted_outcome = some o) ∧
       (∃ sp, p.score_prediction = some sp) ∧
       (∃ r, p.reasoning = some r) ∧
       (∃ c, p.confidence = some c ∧ ¬ (c < 0 ∨ 1 < c)))) ∧
    (∀ o f, p.predicted_outcome = some o →
      validate_and_format_prediction p = .ok f → f.predicted_outcome = o) := by
  obtain ⟨po, psp, pc, pr, pk, prisk⟩ := p
  rcases po with _ | o0 <;> rcases psp with _ | sp0 <;> rcases pc with _ | c0 <;>
      rcases pr with _ | r0 <;>
    simp only [validate_and_format_prediction] <;>
    try exact ⟨by simp, fun o f ho hok => absurd hok (by simp)⟩
  by_cases hc : c0 < 0 ∨ 1 < c0
  · rw [if_pos hc]
    constructor
    · constructor
      · rintro ⟨f, hf⟩
        exact absurd hf (by simp)
      · rintro ⟨-, -, -, c1, hc1, hn⟩
        rw [Option.some.injEq] at hc1
        exact absurd (hc1 ▸ hc) hn
    · intro o f ho hok
      exact absurd hok (by simp)
  · rw [if_neg hc]
    constructor
    · constructor
      · intro _
        exact ⟨⟨_, rfl⟩, ⟨_, rfl⟩, ⟨_, rfl⟩, ⟨c0, rfl, hc⟩⟩
      · intro _
        exact ⟨_, rfl⟩
    · intro o f ho hok
      cases hok
      simpa using ho

/-! ## Claims C3 and C4: the Kelly fraction -/

/-- Python max over a non-empty sequence returns one of its elements. -/
theorem pythonMaxBySnd_mem {α : Type} (x : α × ℚ) (l : List (α × ℚ)) :
    pythonMaxBySnd x l = x ∨ pythonMaxBySnd x l ∈ l := by
  induction l generalizing x with
  | nil => exact Or.inl rfl
  | cons p t ih =>
    rw [pythonMaxBySnd]
    rcases ih (if x.2 < p.2 then p else x) with h | h
    · rw [h]
      split_ifs
      · exact Or.inr (List.mem_cons_self _ _)
      · exact Or.inl rfl
    · exact Or.inr (List.mem_cons_of_mem _ h)

/-- C3: with all three odds present and strictly greater than 1 and model
probabilities in [0,1], evaluate_prediction_quality succeeds, its
kelly_fraction always lies in [0, 0.10], and whenever the best-bet edge is
positive the kelly_fraction equals (odds * modelProbability - 1) /
(odds - 1) clamped into [0, 0.10]. -/
theorem C3_kelly_range (pred : ModelPrediction) (vh vd va : ℚ)
    (hh : 1 < vh) (hd : 1 < vd) (ha : 1 < va)
    (hp1 : 0 ≤ pred.home_win_probability) (hp1b : pred.home_win_probability ≤ 1)
    (hp2 : 0 ≤ pred.draw_probability) (hp2b : pred.draw_probability ≤ 1)
    (hp3 : 0 ≤ pred.away_win_probability) (hp3b : pred.away_win_probability ≤ 1) :
    ∃ r, evaluate_prediction_quality pred
        { home_win := some vh, draw := some vd, away_win := some va } = .ok r ∧
      0 ≤ r.kelly_fraction ∧ r.kelly_fraction ≤ 1/10 ∧
      (0 < r.edge → r.kelly_fraction =
        max 0 (min ((oddsAt vh vd va r.best_bet * pred.probOf r.best_bet - 1) /
                    (oddsAt vh vd va r.best_bet - 1)) (1/10))) := by
  have hvh0 : (0:ℚ) < vh := by linarith
  have hvd0 : (0:ℚ) < vd := by linarith
  have hva0 : (0:ℚ) < va := by linarith
  have hall : ∀ o, 1 < oddsAt vh vd va o := by
    intro o
    cases o <;> simpa [oddsAt]
  have hvals : OddsDict.values { home_win := some vh, draw := some vd, away_win := some va } =
      [vh, vd, va] := rfl
  have hT : (0:ℚ) < (([vh, vd, va].map (fun v => 1 / v)).sum) := by
    have h1 := one_div_pos.mpr hvh0
    have h2 := one_div_pos.mpr hvd0
    have h3 := one_div_pos.mpr hva0
    simp only [List.map_cons, List.map_nil, List.sum_cons, List.sum_nil]
    linarith
  unfold evaluate_prediction_quality
  rw [hvals]
  rw [if_neg (by
    rintro ⟨v, hv, rfl⟩
    simp only [List.mem_cons, List.not_mem_nil, or_false] at hv
    rcases hv with rfl | rfl | rfl <;> linarith)]
  rw [if_neg (by
    rintro ⟨-, h0⟩
    rw [h0] at hT
    exact lt_irrefl 0 hT)]
  dsimp only
  set best := pythonMaxBySnd
    (Outcome.home_win, pred.home_win_probability - (1/vh) / (([vh, vd, va].map (fun v => 1 / v)).sum))
    [(Outcome.draw, pred.draw_probability - (1/vd) / (([vh, vd, va].map (fun v => 1 / v)).sum)),
     (Outcome.away_win, pred.away_win_probability - (1/va) / (([vh, vd, va].map (fun v => 1 / v)).sum))] with hbest
  by_cases hpos : 0 < best.2
  · rw [if_pos hpos, if_neg (sub_ne_zero.mpr (ne_of_gt (hall best.1)))]
    exact ⟨_, rfl, le_max_left _ _, max_le (by norm_num) (min_le_right _ _), fun _ => rfl⟩
  · rw [if_neg hpos]
    exact ⟨_, rfl, le_max_left _ _, max_le (by norm_num) (min_le_right _ _),
      fun he => absurd he hpos⟩

/-- C3 witness: the spec's own example odds 2.10 / 3.40 / 3.80 with model
probability 0.55 on home_win. -/
theorem C3_kelly_range_witness :
    ∃ r, evaluate_prediction_quality
        { home_win_probability := 11/20, draw_probability := 1/4
          away_win_probability := 1/5, confidence := 7/10 }
        { home_win := some (21/10), draw := some (17/5), away_win := some (19/5) } = .ok r ∧
      0 ≤ r.kelly_fraction ∧ r.kelly_fraction ≤ 1/10 ∧
      (0 < r.edge → r.kelly_fraction =
        max 0 (min ((oddsAt (21/10) (17/5) (19/5) r.best_bet *
                      ModelPrediction.probOf
                        { home_win_probability := 11/20, draw_probability := 1/4
                          away_win_probability := 1/5, confidence := 7/10 } r.best_bet - 1) /
                    (oddsAt (21/10) (17/5) (19/5) r.best_bet - 1)) (1/10))) :=
  C3_kelly_range
    { home_win_probability := 11/20, draw_probability := 1/4
      away_win_probability := 1/5, confidence := 7/10 }
    (21/10) (17/5) (19/5)
    (by norm_num) (by norm_num) (by norm_num)
    (by norm_num) (by norm_num) (by norm_num) (by norm_num) (by norm_num) (by norm_num)

/-- C4 counterexample: evaluate_prediction_quality does NOT degrade to a
kelly_fraction of 0 when odds are absent or degenerate — it raises. With
the HOME_WIN odds entry absent the edge computation fails with a KeyError;
with HOME_WIN odds exactly 1.0 and a positive best-bet edge on home_win
the Kelly denominator odds - 1 is zero and a ZeroDivisionError is raised.
Both errors are logged and re-raised to the caller. -/
theorem C4_counterexample :
    (∃ e, evaluate_prediction_quality
        { home_win_probability := 11/20, draw_probability := 1/4
          away_win_probability := 1/5, confidence := 7/10 }
        { home_win := none, draw := some (17/5), away_win := some (19/5) } = .error e) ∧
    (∃ e, evaluate_prediction_quality
        { home_win_probability := 99/100, draw_probability := 1/200
          away_win_probability := 1/200, confidence := 7/10 }
        { home_win := some 1, draw := some (17/5), away_win := some (19/5) } = .error e) := by
  constructor
  · refine ⟨"KeyError", ?_⟩
    unfold evaluate_prediction_quality
    rw [show OddsDict.values { home_win := none, draw := some (17/5), away_win := some (19/5) } =
        [17/5, 19/5] from rfl]
    rw [if_neg (by
      rintro ⟨v, hv, rfl⟩
      simp only [List.mem_cons, List.not_mem_nil, or_false] at hv
      rcases hv with h | h <;> norm_num at h)]
    rw [if_neg (by
      rintro ⟨-, h0⟩
      norm_num at h0)]
  · refine ⟨"ZeroDivisionError: float division by zero", ?_⟩
    unfold evaluate_prediction_quality
    rw [show OddsDict.values { home_win := some 1, draw := some (17/5), away_win := some (19/5) } =
        [1, 17/5, 19/5] from rfl]
    rw [if_neg (by
      rintro ⟨v, hv, rfl⟩
      simp only [List.mem_cons, List.not_mem_nil, or_false] at hv
      rcases hv with h | h | h <;> norm_num at h)]
    rw [if_neg (by
      rintro ⟨-, h0⟩
      norm_num at h0)]
    dsimp only
    rw [show pythonMaxBySnd
        (Outcome.home_win, (99/100 : ℚ) - (1/1) / (([1, 17/5, 19/5] : List ℚ).map (fun v => 1 / v)).sum)
        [(Outcome.draw, (1/200 : ℚ) - (1/(17/5)) / (([1, 17/5, 19/5] : List ℚ).map (fun v => 1 / v)).sum),
         (Outcome.away_win, (1/200 : ℚ) - (1/(19/5)) / (([1, 17/5, 19/5] : List ℚ).map (fun v => 1 / v)).sum)] =
        (Outcome.home_win, (99/100 : ℚ) - (1/1) / (([1, 17/5, 19/5] : List ℚ).map (fun v => 1 / v)).sum) from by
      rw [pythonMaxBySnd, if_neg (by norm_num), pythonMaxBySnd, if_neg (by norm_num), pythonMaxBySnd]]
    rw [if_pos (by norm_num), if_pos (by norm_num [oddsAt])]

/-- C4 (amended): whenever any of the three outcome odds entries is
absent, evaluate_prediction_quality propagates an error to the caller (a
KeyError from the edge computation, unless an earlier ZeroDivisionError
fires); it never substitutes a kelly_fraction of 0 for missing odds. -/
theorem C4_missing_odds_raises (pred : ModelPrediction) (odds : OddsDict)
    (h : odds.home_win = none ∨ odds.draw = none ∨ odds.away_win = none) :
    ∃ e, evaluate_prediction_quality pred odds = .error e := by
  unfold evaluate_prediction_quality
  by_cases h1 : ∃ v ∈ odds.values, v = 0
  · rw [if_pos h1]
    exact ⟨_, rfl⟩
  · rw [if_neg h1]
    dsimp only
    by_cases h2 : odds.values ≠ [] ∧ (odds.values.map (fun v => 1 / v)).sum = 0
    · rw [if_pos h2]
      exact ⟨_, rfl⟩
    · rw [if_neg h2]
      obtain ⟨oh, od, oa⟩ := odds
      rcases oh with _ | v1 <;> rcases od with _ | v2 <;> rcases oa with _ | v3 <;>
        first
          | exact ⟨_, rfl⟩
          | simp at h

/-! ## Claims C1 and C6: outcome probability mass and the argmax tie-break -/

/-- Positivity of the confidence clamp: min(max(c, 0.5), 1) is at least 0.5. -/
theorem clampConf_pos (c : ℚ) : 0 < clampConf c :=
  lt_min (lt_of_lt_of_le (by norm_num) (le_max_right c (1/2))) one_pos

/-- dictGet with a positive default over positive values is positive. -/
theorem dictGet_pos (d : List (String × ℚ)) (k : String) (dflt : ℚ)
    (hd : ∀ p ∈ d, 0 < p.2) (h0 : 0 < dflt) : 0 < dictGet d k dflt := by
  induction d with
  | nil => simpa [dictGet]
  | cons q t ih =>
    obtain ⟨k2, v⟩ := q
    rw [dictGet]
    split_ifs
    · exact hd (k2, v) (List.mem_cons_self _ _)
    · exact ih fun p hp => hd p (List.mem_cons_of_mem _ hp)

/-- dictSet preserves positivity of all stored values. -/
theorem dictSet_values_pos (d : List (String × ℚ)) (k : String) (v : ℚ)
    (hd : ∀ p ∈ d, 0 < p.2) (hv : 0 < v) : ∀ p ∈ dictSet d k v, 0 < p.2 := by
  induction d with
  | nil =>
    intro p hp
    rw [dictSet] at hp
    simp only [List.mem_singleton] at hp
    subst hp
    exact hv
  | cons q t ih =>
    obtain ⟨k2, v2⟩ := q
    intro p hp
    rw [dictSet] at hp
    split_ifs at hp
    · rcases List.mem_cons.mp hp with rfl | hp
      · exact hv
      · exact hd p (List.mem_cons_of_mem _ hp)
    · rcases List.mem_cons.mp hp with rfl | hp
      · exact hd (k2, v2) (List.mem_cons_self _ _)
      · exact ih (fun q hq => hd q (List.mem_cons_of_mem _ hq)) p hp

/-- Membership in the key list after a dict update. -/
theorem mem_dictKeys_dictSet (d : List (String × ℚ)) (k : String) (v : ℚ) (k2 : String) :
    k2 ∈ dictKeys (dictSet d k v) ↔ k2 ∈ dictKeys d ∨ k2 = k := by
  induction d with
  | nil => simp [dictSet, dictKeys]
  | cons q t ih =>
    obtain ⟨k3, v3⟩ := q
    rw [dictSet]
    split_ifs with h
    · subst h
      simp [dictKeys]
      tauto
    · simp only [dictKeys, List.map_cons, List.mem_cons] at ih ⊢
      rw [ih]
      tauto

/-- A dict update keeps the key list duplicate-free. -/
theorem dictKeys_nodup_dictSet (d : List (String × ℚ)) (k : String) (v : ℚ)
    (hd : (dictKeys d).Nodup) : (dictKeys (dictSet d k v)).Nodup := by
  induction d with
  | nil => simp [dictSet, dictKeys]
  | cons q t ih =>
    obtain ⟨k3, v3⟩ := q
    simp only [dictKeys, List.map_cons, List.nodup_cons] at hd
    obtain ⟨hk3, ht⟩ := hd
    rw [dictSet]
    split_ifs with h
    · subst h
      simp only [dictKeys, List.map_cons, List.nodup_cons]
      exact ⟨hk3, ht⟩
    · simp only [dictKeys, List.map_cons, List.nodup_cons]
      refine ⟨?_, ih ht⟩
      show k3 ∉ dictKeys (dictSet t k v)
      rw [mem_dictKeys_dictSet]
      push_neg
      exact ⟨hk3, h⟩

/-- All values stay positive through the confidence-adjustment loop. -/
theorem applyConfidences_values_pos (preds : List (String × Forecast))
    (w : List (String × ℚ)) (hw : ∀ p ∈ w, 0 < p.2) :
    ∀ p ∈ applyConfidences preds w, 0 < p.2 := by
  induction preds generalizing w with
  | nil =>
    intro p hp
    rw [applyConfidences] at hp
    exact hw p hp
  | cons q rest ih =>
    obtain ⟨model, f⟩ := q
    rw [applyConfidences]
    exact ih _ (dictSet_values_pos _ _ _ hw
      (mul_pos (dictGet_pos _ _ _ hw (by norm_num)) (clampConf_pos _)))

/-- The keys after the confidence-adjustment loop are the base keys plus
the contributing provider names. -/
theorem mem_dictKeys_applyConfidences (preds : List (String × Forecast))
    (w : List (String × ℚ)) (k : String) :
    k ∈ dictKeys (applyConfidences preds w) ↔
      k ∈ dictKeys w ∨ k ∈ preds.map Prod.fst := by
  induction preds generalizing w with
  | nil => simp [applyConfidences]
  | cons q rest ih =>
    obtain ⟨model, f⟩ := q
    rw [applyConfidences, ih, mem_dictKeys_dictSet]
    simp only [List.map_cons, List.mem_cons]
    tauto

/-- The confidence-adjustment loop keeps the key list duplicate-free. -/
theorem dictKeys_nodup_applyConfidences (preds : List (String × Forecast))
    (w : List (String × ℚ)) (hw : (dictKeys w).Nodup) :
    (dictKeys (applyConfidences preds w)).Nodup := by
  induction preds generalizing w with
  | nil => simpa [applyConfidences]
  | cons q rest ih =>
    obtain ⟨model, f⟩ := q
    rw [applyConfidences]
    exact ih _ (dictKeys_nodup_dictSet _ _ _ hw)

/-- Looking a key up after dividing every value by T divides the zero-default
lookup by T. -/
theorem dictGet_map_div (d : List (String × ℚ)) (T : ℚ) (k : String) :
    dictGet (d.map (fun p => (p.1, p.2 / T))) k 0 = dictGet d k 0 / T := by
  induction d with
  | nil => simp [dictGet]
  | cons q t ih =>
    obtain ⟨k2, v⟩ := q
    simp only [List.map_cons]
    rw [dictGet, dictGet]
    split_ifs
    · rfl
    · exact ih

/-- Over a duplicate-free dict, summing the lookups of all keys gives the
total of the values. -/
theorem sum_dictGet_keys (d : List (String × ℚ)) (hd : (dictKeys d).Nodup) :
    ((dictKeys d).map (fun k => dictGet d k 0)).sum = totalWeight d := by
  induction d with
  | nil => simp [dictKeys, totalWeight]
  | cons q t ih =>
    obtain ⟨k2, v⟩ := q
    simp only [dictKeys, List.map_cons, List.nodup_cons] at hd
    obtain ⟨hk2, ht⟩ := hd
    simp only [dictKeys, List.map_cons, List.sum_cons]
    have h1 : dictGet ((k2, v) :: t) k2 0 = v := by
      rw [dictGet, if_pos rfl]
    have h2 : (t.map Prod.fst).map (fun k => dictGet ((k2, v) :: t) k 0) =
        (t.map Prod.fst).map (fun k => dictGet t k 0) := by
      apply List.map_congr_left
      intro a ha
      rw [dictGet, if_neg]
      intro he
      exact hk2 (he ▸ ha)
    rw [h1, h2]
    have := ih ht
    simp only [dictKeys] at this
    rw [this]
    simp [totalWeight]

/-- Each loop step adds exactly its weight to the total mass. -/
theorem addMass_total (m : OutcomeProbs) (o : Outcome) (w : ℚ) :
    (m.addMass o w).total = m.total + w := by
  cases o <;> simp [OutcomeProbs.addMass, OutcomeProbs.total] <;> ring

/-- The total mass after the aggregation loop is the starting mass plus the
sum of the looked-up weights of the contributing providers. -/
theorem accumulateMassFrom_total (W : List (String × ℚ))
    (preds : List (String × Forecast)) (m : OutcomeProbs) :
    (accumulateMassFrom W preds m).total =
      m.total + (preds.map (fun p => dictGet W p.1 0)).sum := by
  induction preds generalizing m with
  | nil => simp [accumulateMassFrom]
  | cons q rest ih =>
    obtain ⟨model, f⟩ := q
    rw [accumulateMassFrom, ih, addMass_total]
    simp only [List.map_cons, List.sum_cons]
    ring

/-- Summing value/T over a key list is the sum of values over T. -/
theorem sum_map_div (l : List String) (f : String → ℚ) (T : ℚ) :
    (l.map (fun k => f k / T)).sum = (l.map f).sum / T := by
  induction l with
  | nil => simp
  | cons a t ih => simp [List.map_cons, List.sum_cons, ih, add_div]

/-- C1 counterexample: with base weights gpt4 = 0.6, deepseek = 0.4 and a
single validated forecast from gpt4 alone (confidence 1), the normalisation
of _calculate_dynamic_weights divides by a total that still includes the
absent deepseek entry, so the outcome probability mass accumulated by
_weighted_aggregate sums to 0.6 — off from 1.0 by far more than 1e-9 —
refuting the claim for strict subsets of the base weight map. -/
theorem C1_counterexample :
    (weighted_aggregate [("gpt4", Forecast.mk Outcome.home_win 2 1 1)]
        (calculate_dynamic_weights [("gpt4", Forecast.mk Outcome.home_win 2 1 1)]
          [("gpt4", 3/5), ("deepseek", 2/5)])).outcome_probabilities.total = 3/5 ∧
    ¬ (|(weighted_aggregate [("gpt4", Forecast.mk Outcome.home_win 2 1 1)]
          (calculate_dynamic_weights [("gpt4", Forecast.mk Outcome.home_win 2 1 1)]
            [("gpt4", 3/5), ("deepseek", 2/5)])).outcome_probabilities.total - 1|
        ≤ 1/1000000000) := by
  have h : (weighted_aggregate [("gpt4", Forecast.mk Outcome.home_win 2 1 1)]
      (calculate_dynamic_weights [("gpt4", Forecast.mk Outcome.home_win 2 1 1)]
        [("gpt4", 3/5), ("deepseek", 2/5)])).outcome_probabilities.total = 3/5 := by
    norm_num [weighted_aggregate, calculate_dynamic_weights, applyConfidences, dictSet, dictGet,
      totalWeight, clampConf, accumulateOutcomeProbs, accumulateMassFrom, OutcomeProbs.addMass,
      OutcomeProbs.total]
  refine ⟨h, ?_⟩
  rw [h]
  rw [show |(3:ℚ)/5 - 1| = 2/5 from by
    rw [abs_of_nonpos (by norm_num)]
    norm_num]
  norm_num

/-- C1 (amended): the outcome probability mass produced by
_calculate_dynamic_weights followed by _weighted_aggregate sums to exactly
1 for every non-empty forecast list with pairwise-distinct provider names
that covers every model named in the (duplicate-free, positively-weighted)
base weight map; when a base-map model contributes no forecast, its
normalized weight is missing from the mass, which then falls short of 1
(by 0.4 in the counterexample). -/
theorem C1_mass_sums_to_one (preds : List (String × Forecast))
    (base_weights : List (String × ℚ))
    (hne : preds ≠ [])
    (hpn : (preds.map Prod.fst).Nodup)
    (hbn : (dictKeys base_weights).Nodup)
    (hbp : ∀ p ∈ base_weights, 0 < p.2)
    (hcover : ∀ k ∈ dictKeys base_weights, k ∈ preds.map Prod.fst) :
    (weighted_aggregate preds
        (calculate_dynamic_weights preds base_weights)).outcome_probabilities.total = 1 := by
  have hshow : (weighted_aggregate preds
      (calculate_dynamic_weights preds base_weights)).outcome_probabilities
      = accumulateOutcomeProbs preds (calculate_dynamic_weights preds base_weights) := rfl
  rw [hshow]
  set w := applyConfidences preds base_weights with hw
  have hWdef : calculate_dynamic_weights preds base_weights =
      w.map (fun p => (p.1, p.2 / totalWeight w)) := rfl
  rw [hWdef]
  have hwpos : ∀ p ∈ w, 0 < p.2 := applyConfidences_values_pos _ _ hbp
  have hwnodup : (dictKeys w).Nodup := dictKeys_nodup_applyConfidences _ _ hbn
  have hkeys : ∀ k, k ∈ dictKeys w ↔ k ∈ preds.map Prod.fst := by
    intro k
    rw [hw, mem_dictKeys_applyConfidences]
    constructor
    · rintro (h | h)
      · exact hcover k h
      · exact h
    · exact Or.inr
  have hperm : (preds.map Prod.fst).Perm (dictKeys w) :=
    (List.perm_ext_iff_of_nodup hpn hwnodup).mpr fun a => (hkeys a).symm
  have hwne : w ≠ [] := by
    obtain ⟨p, hp⟩ := List.exists_mem_of_ne_nil preds hne
    have hmem : p.1 ∈ dictKeys w := (hkeys p.1).mpr (List.mem_map_of_mem _ hp)
    intro hnil
    rw [hnil] at hmem
    simp [dictKeys] at hmem
  have hT : 0 < totalWeight w := by
    have hpos : 0 < (w.map Prod.snd).sum :=
      List.sum_pos _ (fun x hx => by
        obtain ⟨p, hp, rfl⟩ := List.mem_map.mp hx
        exact hwpos p hp) (by simpa using hwne)
    exact hpos
  rw [accumulateOutcomeProbs, accumulateMassFrom_total]
  have h0 : OutcomeProbs.total { home_win := 0, draw := 0, away_win := 0 } = 0 := by
    simp [OutcomeProbs.total]
  rw [h0, zero_add]
  have hstep1 : preds.map (fun p => dictGet (w.map (fun q => (q.1, q.2 / totalWeight w))) p.1 0) =
      (preds.map Prod.fst).map (fun k => dictGet (w.map (fun q => (q.1, q.2 / totalWeight w))) k 0) := by
    rw [List.map_map]
    rfl
  rw [hstep1,
    List.Perm.sum_eq (hperm.map (fun k => dictGet (w.map (fun q => (q.1, q.2 / totalWeight w))) k 0))]
  have hstep2 : (dictKeys w).map (fun k => dictGet (w.map (fun q => (q.1, q.2 / totalWeight w))) k 0) =
      (dictKeys w).map (fun k => dictGet w k 0 / totalWeight w) := by
    apply List.map_congr_left
    intro a _
    exact dictGet_map_div w (totalWeight w) a
  rw [hstep2, sum_map_div, sum_dictGet_keys w hwnodup, div_self (ne_of_gt hT)]

/-- C1 witness: both configured models (base weights 0.6 / 0.4) contribute
forecasts with confidences 0.8 and 0.6; the probability mass is exactly 1. -/
theorem C1_mass_sums_to_one_witness :
    (weighted_aggregate
        [("gpt4", Forecast.mk Outcome.home_win 2 1 (4/5)),
         ("deepseek", Forecast.mk Outcome.home_win 1 1 (3/5))]
        (calculate_dynamic_weights
          [("gpt4", Forecast.mk Outcome.home_win 2 1 (4/5)),
           ("deepseek", Forecast.mk Outcome.home_win 1 1 (3/5))]
          [("gpt4", 3/5), ("deepseek", 2/5)])).outcome_probabilities.total = 1 :=
  C1_mass_sums_to_one
    [("gpt4", Forecast.mk Outcome.home_win 2 1 (4/5)),
     ("deepseek", Forecast.mk Outcome.home_win 1 1 (3/5))]
    [("gpt4", 3/5), ("deepseek", 2/5)]
    (by simp) (by decide) (by decide)
    (by norm_num [List.forall_mem_cons]) (by decide)

/-- Case analysis of Python max over the outcome_probabilities items in
their insertion order home_win, draw, away_win: the first key attaining
the maximum mass wins. -/
theorem pickPredictedOutcome_cases (m : OutcomeProbs) :
    pickPredictedOutcome m =
      if m.draw ≤ m.home_win ∧ m.away_win ≤ m.home_win then Outcome.home_win
      else if m.away_win ≤ max m.home_win m.draw then Outcome.draw
      else Outcome.away_win := by
  unfold pickPredictedOutcome
  simp only [pythonMaxBySnd]
  by_cases h1 : m.home_win < m.draw
  · rw [if_pos h1]
    by_cases h2 : m.draw < m.away_win
    · rw [if_pos h2]
      rw [if_neg (fun hc => absurd h1 (not_lt.mpr hc.1)),
          if_neg (by rw [max_eq_right h1.le]; exact not_le.mpr h2)]
    · rw [if_neg h2]
      rw [if_neg (fun hc => absurd h1 (not_lt.mpr hc.1)),
          if_pos (by rw [max_eq_right h1.le]; exact not_lt.mp h2)]
  · rw [if_neg h1]
    by_cases h2 : m.home_win < m.away_win
    · rw [if_pos h2]
      rw [if_neg (fun hc => absurd h2 (not_lt.mpr hc.2)),
          if_neg (by rw [max_eq_left (not_lt.mp h1)]; exact not_le.mpr h2)]
    · rw [if_neg h2]
      rw [if_pos ⟨not_lt.mp h1, not_lt.mp h2⟩]

/-- C6 counterexample: three providers with equal (clamped) confidences and
base weights a = 0.25, b = 0.25, c = 0.5, where a and b predict away_win
and c predicts draw. The weight masses of draw and away_win tie at 0.5 and
the unweighted majority among providers is away_win (2 votes to 1), yet
_weighted_aggregate returns draw — the dict key declared earlier — refuting
the claimed majority-then-input-order tie-break. -/
theorem C6_counterexample :
    (accumulateOutcomeProbs
        [("a", Forecast.mk Outcome.away_win 1 1 1), ("b", Forecast.mk Outcome.away_win 1 1 1),
         ("c", Forecast.mk Outcome.draw 1 1 1)]
        (calculate_dynamic_weights
          [("a", Forecast.mk Outcome.away_win 1 1 1), ("b", Forecast.mk Outcome.away_win 1 1 1),
           ("c", Forecast.mk Outcome.draw 1 1 1)]
          [("a", 1/4), ("b", 1/4), ("c", 1/2)])).draw =
      (accumulateOutcomeProbs
        [("a", Forecast.mk Outcome.away_win 1 1 1), ("b", Forecast.mk Outcome.away_win 1 1 1),
         ("c", Forecast.mk Outcome.draw 1 1 1)]
        (calculate_dynamic_weights
          [("a", Forecast.mk Outcome.away_win 1 1 1), ("b", Forecast.mk Outcome.away_win 1 1 1),
           ("c", Forecast.mk Outcome.draw 1 1 1)]
          [("a", 1/4), ("b", 1/4), ("c", 1/2)])).away_win ∧
    ([("a", Forecast.mk Outcome.away_win 1 1 1), ("b", Forecast.mk Outcome.away_win 1 1 1),
      ("c", Forecast.mk Outcome.draw 1 1 1)].filter
        (fun p => p.2.predicted_outcome = Outcome.draw)).length <
      ([("a", Forecast.mk Outcome.away_win 1 1 1), ("b", Forecast.mk Outcome.away_win 1 1 1),
        ("c", Forecast.mk Outcome.draw 1 1 1)].filter
          (fun p => p.2.predicted_outcome = Outcome.away_win)).length ∧
    (weighted_aggregate
        [("a", Forecast.mk Outcome.away_win 1 1 1), ("b", Forecast.mk Outcome.away_win 1 1 1),
         ("c", Forecast.mk Outcome.draw 1 1 1)]
        (calculate_dynamic_weights
          [("a", Forecast.mk Outcome.away_win 1 1 1), ("b", Forecast.mk Outcome.away_win 1 1 1),
           ("c", Forecast.mk Outcome.draw 1 1 1)]
          [("a", 1/4), ("b", 1/4), ("c", 1/2)])).predicted_outcome = Outcome.draw := by
  have hab : ("a" : String) ≠ "b" := by decide
  have hac : ("a" : String) ≠ "c" := by decide
  have hba : ("b" : String) ≠ "a" := by decide
  have hbc : ("b" : String) ≠ "c" := by decide
  have hca : ("c" : String) ≠ "a" := by decide
  have hcb : ("c" : String) ≠ "b" := by decide
  refine ⟨?_, by decide, ?_⟩ <;>
    norm_num [weighted_aggregate, calculate_dynamic_weights, applyConfidences, dictSet, dictGet,
      totalWeight, clampConf, accumulateOutcomeProbs, accumulateMassFrom, OutcomeProbs.addMass,
      pickPredictedOutcome, pythonMaxBySnd, hab, hac, hba, hbc, hca, hcb]

/-- C6 (amended): in _weighted_aggregate the winning outcome is the argmax
of accumulated weight mass, with ties broken by the fixed insertion order
home_win, draw, away_win of the outcome_probabilities dict (the first key
attaining the maximum wins), independent of the unweighted provider
majority and of provider input order: home_win wins whenever no other mass
strictly exceeds it, otherwise draw wins whenever away_win does not
strictly exceed both. -/
theorem C6_argmax_first_in_key_order (preds : List (String × Forecast))
    (weights : List (String × ℚ)) :
    (weighted_aggregate preds weights).predicted_outcome =
      (if (accumulateOutcomeProbs preds weights).draw ≤ (accumulateOutcomeProbs preds weights).home_win ∧
          (accumulateOutcomeProbs preds weights).away_win ≤ (accumulateOutcomeProbs preds weights).home_win
       then Outcome.home_win
       else if (accumulateOutcomeProbs preds weights).away_win ≤
          max (accumulateOutcomeProbs preds weights).home_win (accumulateOutcomeProbs preds weights).draw
       then Outcome.draw
       else Outcome.away_win) :=
  pickPredictedOutcome_cases (accumulateOutcomeProbs preds weights)

/-- C4 witness: the amended theorem at the concrete odds dict missing its
HOME_WIN entry. -/
theorem C4_missing_odds_raises_witness :
    ∃ e, evaluate_prediction_quality
        { home_win_probability := 11/20, draw_probability := 1/4
          away_win_probability := 1/5, confidence := 7/10 }
        { home_win := none, draw := some (17/5), away_win := some (19/5) } = .error e :=
  C4_missing_odds_raises
    { home_win_probability := 11/20, draw_probability := 1/4
      away_win_probability := 1/5, confidence := 7/10 }
    { home_win := none, draw := some (17/5), away_win := some (19/5) }
    (Or.inl rfl)

end WinWise
